import Mathlib

/-!
Shallow embedding of `linux_resource_audit-v04.py` (and the legacy
`versoes_anteriores/linux_resource_audit-v02.py`), together with proofs of
the behavioural properties of its transform, collect and load stages.

Modelling conventions:
* Python floats (psutil percentages, GB figures) are modelled as exact
  rationals `ℚ`; `math.ceil` is `Int.ceil`.
* Python dicts with string keys are modelled as association lists
  `List (String × _)` in insertion order, which is how Python iterates them.
* The two shapes a disk entry can take (`{total_gb, used_gb, used_pct}` or
  `{error: "mount not found"}`) are the two constructors of `DiskData`;
  Python's `"used_pct" in data` test corresponds to matching on the `ok`
  constructor.
* External effects (psutil queries, subprocess, sqlite) are oracles passed
  as arguments; exceptions are `Except` / explicit control flow.
-/

namespace LinuxResourceAudit

/-- The five fields returned by `get_memory_info` (all Python floats). -/
structure MemorySnapshot where
  mem_total_gb : ℚ
  mem_used_gb : ℚ
  mem_used_pct : ℚ
  swap_total_gb : ℚ
  swap_used_pct : ℚ
deriving DecidableEq

/-- One value of the `disks` dict built by `get_disk_info`: either the
numeric shape `{total_gb, used_gb, used_pct}` or the error marker
`{error: "mount not found"}` (the message is kept in the constructor). -/
inductive DiskData where
  | ok (total_gb used_gb used_pct : ℚ)
  | err (msg : String)
deriving DecidableEq

/-- `THRESHOLDS["mem_used_pct"]` from the source. -/
def THRESHOLDS_mem_used_pct : ℚ := 85

/-- `THRESHOLDS["swap_used_pct"]` from the source. -/
def THRESHOLDS_swap_used_pct : ℚ := 60

/-- `THRESHOLDS["disk_used_pct"]` from the source. -/
def THRESHOLDS_disk_used_pct : ℚ := 80

/-- `classify_risk(mem, disks)` from v04 (lines 84-97): conditionally append
`RAM_CRITICAL`, then `SWAP_CRITICAL`, then one `DISK_CRITICAL:<mount>` per
over-threshold non-error disk entry in dict order; fall back to `["OK"]`
when no alert fired. -/
def classify_risk (mem : MemorySnapshot) (disks : List (String × DiskData)) :
    List String :=
  let alerts : List String := []
  let alerts :=
    if mem.mem_used_pct ≥ THRESHOLDS_mem_used_pct then alerts ++ ["RAM_CRITICAL"] else alerts
  let alerts :=
    if mem.swap_used_pct ≥ THRESHOLDS_swap_used_pct then alerts ++ ["SWAP_CRITICAL"] else alerts
  let alerts := disks.foldl (fun acc entry =>
    match entry.2 with
    | DiskData.ok _ _ used_pct =>
        if used_pct ≥ THRESHOLDS_disk_used_pct then acc ++ ["DISK_CRITICAL:" ++ entry.1]
        else acc
    | DiskData.err _ => acc) alerts
  if alerts = [] then ["OK"] else alerts

/-- A left fold that on each element either appends one item or leaves the
accumulator alone is the accumulator followed by a `filterMap`. -/
theorem foldl_step_filterMap {α β : Type} (step : List β → α → List β)
    (g : α → Option β) (hstep : ∀ acc x, step acc x = acc ++ (g x).toList) :
    ∀ (l : List α) (acc : List β), l.foldl step acc = acc ++ l.filterMap g := by
  intro l
  induction l with
  | nil => intro acc; simp
  | cons x xs ih =>
      intro acc
      rw [List.foldl_cons, hstep, ih]
      cases h : g x <;> simp [h, Option.toList]

/-- The selector of the disk loop in `classify_risk`. -/
def diskAlertSel (entry : String × DiskData) : Option String :=
  match entry.2 with
  | DiskData.ok _ _ used_pct =>
      if used_pct ≥ THRESHOLDS_disk_used_pct then some ("DISK_CRITICAL:" ++ entry.1) else none
  | DiskData.err _ => none

theorem classify_risk_alerts (mem : MemorySnapshot)
    (disks : List (String × DiskData)) :
    classify_risk mem disks =
      if (if mem.mem_used_pct ≥ 85 then ["RAM_CRITICAL"] else []) ++
          (if mem.swap_used_pct ≥ 60 then ["SWAP_CRITICAL"] else []) ++
          disks.filterMap diskAlertSel = [] then ["OK"]
      else (if mem.mem_used_pct ≥ 85 then ["RAM_CRITICAL"] else []) ++
          (if mem.swap_used_pct ≥ 60 then ["SWAP_CRITICAL"] else []) ++
          disks.filterMap diskAlertSel := by
  have hstep : ∀ (acc : List String) (entry : String × DiskData),
      (match entry.2 with
       | DiskData.ok _ _ used_pct =>
           if used_pct ≥ THRESHOLDS_disk_used_pct then acc ++ ["DISK_CRITICAL:" ++ entry.1]
           else acc
       | DiskData.err _ => acc) = acc ++ (diskAlertSel entry).toList := by
    intro acc entry
    unfold diskAlertSel
    cases entry.2 with
    | ok t u p =>
        by_cases hp : p ≥ THRESHOLDS_disk_used_pct <;> simp [hp]
    | err m => simp
  have hAB : ∀ (c1 c2 : Prop) (d1 : Decidable c1) (d2 : Decidable c2)
      (x y : List String),
      (if c2 then (if c1 then [] ++ x else []) ++ y else if c1 then [] ++ x else []) =
        (if c1 then x else []) ++ (if c2 then y else []) := by
    intro c1 c2 d1 d2 x y
    split_ifs <;> simp
  unfold classify_risk
  dsimp only
  rw [foldl_step_filterMap _ diskAlertSel hstep]
  simp only [THRESHOLDS_mem_used_pct, THRESHOLDS_swap_used_pct]
  rw [hAB]

/-- Claim C1: for every memory snapshot and disk snapshot, `classify_risk`
produces its tags in the fixed order RAM, swap, then disks in input order:
`RAM_CRITICAL` present iff `mem_used_pct ≥ 85`, then `SWAP_CRITICAL` present
iff `swap_used_pct ≥ 60`, then one `DISK_CRITICAL:<mount>` per non-error
mount with `used_pct ≥ 80`, in mount order; error mounts contribute no tag
(the `OK` fallback covers the no-tag case). -/
theorem classify_risk_tag_order (mem : MemorySnapshot)
    (disks : List (String × DiskData)) :
    classify_risk mem disks =
      if (if mem.mem_used_pct ≥ 85 then ["RAM_CRITICAL"] else []) ++
          (if mem.swap_used_pct ≥ 60 then ["SWAP_CRITICAL"] else []) ++
          disks.filterMap (fun entry =>
            match entry.2 with
            | DiskData.ok _ _ used_pct =>
                if used_pct ≥ 80 then some ("DISK_CRITICAL:" ++ entry.1) else none
            | DiskData.err _ => none) = [] then ["OK"]
      else (if mem.mem_used_pct ≥ 85 then ["RAM_CRITICAL"] else []) ++
          (if mem.swap_used_pct ≥ 60 then ["SWAP_CRITICAL"] else []) ++
          disks.filterMap (fun entry =>
            match entry.2 with
            | DiskData.ok _ _ used_pct =>
                if used_pct ≥ 80 then some ("DISK_CRITICAL:" ++ entry.1) else none
            | DiskData.err _ => none) :=
  classify_risk_alerts mem disks

theorem diskAlertSel_eq_none_iff (entry : String × DiskData) :
    diskAlertSel entry = none ↔ ∀ t u p, entry.2 = DiskData.ok t u p → p < 80 := by
  obtain ⟨mount, d⟩ := entry
  cases d with
  | ok t u p =>
      simp only [diskAlertSel, THRESHOLDS_disk_used_pct]
      constructor
      · intro hnone t2 u2 p2 heq
        obtain ⟨rfl, rfl, rfl⟩ := DiskData.ok.inj heq
        by_contra hge
        rw [if_pos (not_lt.mp hge)] at hnone
        exact Option.some_ne_none _ hnone
      · intro hall
        exact if_neg (not_le.mpr (hall t u p rfl))
  | err m =>
      simp only [diskAlertSel]
      constructor
      · intro _ t u p heq
        exact absurd heq (by simp)
      · intro _
        trivial

theorem disk_tag_ne_ok {entry : String × DiskData} {s : String}
    (h : diskAlertSel entry = some s) : s ≠ "OK" := by
  obtain ⟨mount, d⟩ := entry
  cases d with
  | ok t u p =>
      simp only [diskAlertSel, THRESHOLDS_disk_used_pct] at h
      by_cases hp : (80 : ℚ) ≤ p
      · rw [if_pos hp] at h
        obtain rfl := Option.some.inj h
        intro hc
        have hlen := congrArg String.length hc
        rw [String.length_append] at hlen
        have h14 : ("DISK_CRITICAL:" : String).length = 14 := rfl
        have h2 : ("OK" : String).length = 2 := rfl
        omega
      · rw [if_neg hp] at h
        exact absurd h (by simp)
  | err m =>
      simp only [diskAlertSel] at h
      exact absurd h (by simp)

/-- Claim C4: `classify_risk` always returns a non-empty list; it returns
exactly `["OK"]` iff no threshold condition fired (`mem_used_pct < 85`,
`swap_used_pct < 60`, and every non-error mount below 80), and `"OK"` occurs
in the result only in that case. -/
theorem classify_risk_ok_sentinel (mem : MemorySnapshot)
    (disks : List (String × DiskData)) :
    classify_risk mem disks ≠ [] ∧
    (classify_risk mem disks = ["OK"] ↔
      mem.mem_used_pct < 85 ∧ mem.swap_used_pct < 60 ∧
        ∀ m t u p, (m, DiskData.ok t u p) ∈ disks → p < 80) ∧
    ("OK" ∈ classify_risk mem disks ↔
      mem.mem_used_pct < 85 ∧ mem.swap_used_pct < 60 ∧
        ∀ m t u p, (m, DiskData.ok t u p) ∈ disks → p < 80) := by
  have h := classify_risk_alerts mem disks
  generalize hA : (if mem.mem_used_pct ≥ 85 then (["RAM_CRITICAL"] : List String)
    else []) = A at h
  generalize hB : (if mem.swap_used_pct ≥ 60 then (["SWAP_CRITICAL"] : List String)
    else []) = B at h
  generalize hC : disks.filterMap diskAlertSel = C at h
  have hAnil : A = [] ↔ mem.mem_used_pct < 85 := by
    rw [← hA]
    by_cases c : mem.mem_used_pct ≥ 85
    · rw [if_pos c]
      exact iff_of_false (by simp) (not_lt.mpr c)
    · rw [if_neg c]
      exact iff_of_true rfl (not_le.mp c)
  have hBnil : B = [] ↔ mem.swap_used_pct < 60 := by
    rw [← hB]
    by_cases c : mem.swap_used_pct ≥ 60
    · rw [if_pos c]
      exact iff_of_false (by simp) (not_lt.mpr c)
    · rw [if_neg c]
      exact iff_of_true rfl (not_le.mp c)
  have hCnil : C = [] ↔ ∀ m t u p, (m, DiskData.ok t u p) ∈ disks → p < 80 := by
    rw [← hC, List.filterMap_eq_nil_iff]
    constructor
    · intro hall m t u p hm
      exact (diskAlertSel_eq_none_iff (m, DiskData.ok t u p)).mp (hall _ hm) t u p rfl
    · intro hall e he
      refine (diskAlertSel_eq_none_iff e).mpr ?_
      intro t u p heq
      refine hall e.1 t u p ?_
      have he2 : e = (e.1, DiskData.ok t u p) := by
        obtain ⟨m, d⟩ := e
        simp only at heq
        rw [heq]
      rw [← he2]
      exact he
  have hne : ∀ s ∈ A ++ B ++ C, s ≠ "OK" := by
    intro s hs
    rcases List.mem_append.mp hs with hs12 | hsC
    · rcases List.mem_append.mp hs12 with hs1 | hs1
      · rw [← hA] at hs1
        by_cases c : mem.mem_used_pct ≥ 85
        · rw [if_pos c] at hs1
          simp only [List.mem_singleton] at hs1
          subst hs1
          decide
        · rw [if_neg c] at hs1
          simp at hs1
      · rw [← hB] at hs1
        by_cases c : mem.swap_used_pct ≥ 60
        · rw [if_pos c] at hs1
          simp only [List.mem_singleton] at hs1
          subst hs1
          decide
        · rw [if_neg c] at hs1
          simp at hs1
    · rw [← hC] at hsC
      obtain ⟨e, _, hsel⟩ := List.mem_filterMap.mp hsC
      exact disk_tag_ne_ok hsel
  have hempty : A ++ B ++ C = [] ↔
      (mem.mem_used_pct < 85 ∧ mem.swap_used_pct < 60 ∧
        ∀ m t u p, (m, DiskData.ok t u p) ∈ disks → p < 80) := by
    simp only [List.append_eq_nil]
    rw [hAnil, hBnil, hCnil]
    exact and_assoc
  rw [h]
  refine ⟨?_, ?_, ?_⟩
  · split_ifs with hif
    · simp
    · exact hif
  · split_ifs with hif
    · exact iff_of_true rfl (hempty.mp hif)
    · refine iff_of_false ?_ ?_
      · intro heq
        exact hne "OK" (heq ▸ List.mem_singleton_self "OK") rfl
      · intro hnf
        exact hif (hempty.mpr hnf)
  · split_ifs with hif
    · exact iff_of_true (by simp) (hempty.mp hif)
    · refine iff_of_false ?_ ?_
      · intro hmem
        exact hne "OK" hmem rfl
      · intro hnf
        exact hif (hempty.mpr hnf)

/-- One value of the `disk_reco` dict built inside `recommend_resources`. -/
structure DiskReco where
  current_total_gb : ℚ
  recommended_total_gb : ℤ
deriving DecidableEq

/-- The dict returned by `recommend_resources`. -/
structure Recommendations where
  ram_gb_recommended : ℤ
  disk_recommendations : List (String × DiskReco)
  journald_limits : List (String × String)
deriving DecidableEq

/-- `recommend_resources(mem, disks)` from v04 (lines 116-146): the RAM
target (1.5 factor above the 80 branch point, plain total below), one disk
recommendation (1.4 factor) per entry that has a `used_gb` key, and the four
constant journald limits. -/
def recommend_resources (mem : MemorySnapshot)
    (disks : List (String × DiskData)) : Recommendations :=
  let ideal_ram : ℤ :=
    if mem.mem_used_pct ≥ 80 then ⌈mem.mem_used_gb * (1.5 : ℚ)⌉
    else ⌈mem.mem_total_gb⌉
  let disk_reco := disks.foldl (fun acc entry =>
    match entry.2 with
    | DiskData.ok total_gb used_gb _ =>
        acc ++ [(entry.1,
          { current_total_gb := total_gb,
            recommended_total_gb := ⌈used_gb * (1.4 : ℚ)⌉ })]
    | DiskData.err _ => acc) []
  { ram_gb_recommended := ideal_ram,
    disk_recommendations := disk_reco,
    journald_limits := [("SystemMaxUse", "500M"), ("SystemKeepFree", "1G"),
      ("RuntimeMaxUse", "200M"), ("MaxFileSec", "7day")] }

/-- The selector of the disk loop in `recommend_resources`. -/
def diskRecoSel (entry : String × DiskData) : Option (String × DiskReco) :=
  match entry.2 with
  | DiskData.ok total_gb used_gb _ =>
      some (entry.1,
        { current_total_gb := total_gb,
          recommended_total_gb := ⌈used_gb * (1.4 : ℚ)⌉ })
  | DiskData.err _ => none

/-- Claim C2: `recommend_resources` returns `ceil(mem_used_gb * 1.5)` as the
RAM target when `mem_used_pct ≥ 80` (the boundary 80 included) and
`ceil(mem_total_gb)` otherwise; the disk map has exactly the non-error
mounts, each with its current total and `ceil(used_gb * 1.4)`; and the
journald limits are the four fixed pairs on every input. -/
theorem recommend_resources_spec (mem : MemorySnapshot)
    (disks : List (String × DiskData)) :
    (recommend_resources mem disks).ram_gb_recommended =
      (if mem.mem_used_pct ≥ 80 then ⌈mem.mem_used_gb * (3 / 2 : ℚ)⌉
       else ⌈mem.mem_total_gb⌉) ∧
    (recommend_resources mem disks).disk_recommendations =
      disks.filterMap (fun entry =>
        match entry.2 with
        | DiskData.ok total_gb used_gb _ =>
            some (entry.1,
              { current_total_gb := total_gb,
                recommended_total_gb := ⌈used_gb * (7 / 5 : ℚ)⌉ })
        | DiskData.err _ => none) ∧
    (recommend_resources mem disks).journald_limits =
      [("SystemMaxUse", "500M"), ("SystemKeepFree", "1G"),
       ("RuntimeMaxUse", "200M"), ("MaxFileSec", "7day")] := by
  have h32 : (1.5 : ℚ) = 3 / 2 := by norm_num
  have h75 : (1.4 : ℚ) = 7 / 5 := by norm_num
  refine ⟨?_, ?_, rfl⟩
  · rw [← h32]
    rfl
  · have hstep : ∀ (acc : List (String × DiskReco)) (entry : String × DiskData),
        (match entry.2 with
         | DiskData.ok total_gb used_gb _ =>
             acc ++ [(entry.1,
               { current_total_gb := total_gb,
                 recommended_total_gb := ⌈used_gb * (1.4 : ℚ)⌉ })]
         | DiskData.err _ => acc) = acc ++ (diskRecoSel entry).toList := by
      intro acc entry
      unfold diskRecoSel
      obtain ⟨m, d⟩ := entry
      cases d <;> simp
    show disks.foldl _ [] = _
    rw [foldl_step_filterMap _ diskRecoSel hstep, List.nil_append, ← h75]
    rfl

/-- The memory-pressure sentence appended by rule 1 of `generate_analysis`
(Python concatenates the two adjacent literals into one string). -/
def memPressureLine : String :=
  "Pressão de memória detectada. O sistema opera próximo ao limite, com risco de congelamentos e latência elevada."

/-- The per-mount disk-pressure sentence of rule 2 of `generate_analysis`. -/
def diskPressureLine (mount : String) : String :=
  "A partição " ++ mount ++ " está acima de 80% de uso, o que pode causar falhas de escrita, travamentos de serviços e degradação geral."

/-- The all-clear fallback sentence of `generate_analysis`. -/
def allClearLine : String :=
  "O sistema opera dentro de parâmetros aceitáveis, sem indícios de quase travamento no período analisado."

/-- `generate_analysis(risk, mem, disks)` from v04 (lines 148-170): rule 1
on the risk tags, rule 2 per over-80 non-error disk entry in dict order,
then the fallback sentence when nothing fired. The `mem` argument is
received but never read, exactly as in the source. -/
def generate_analysis (risk : List String) (mem : MemorySnapshot)
    (disks : List (String × DiskData)) : List String :=
  let analysis : List String := []
  let analysis :=
    if "RAM_CRITICAL" ∈ risk ∨ "SWAP_CRITICAL" ∈ risk then analysis ++ [memPressureLine]
    else analysis
  let analysis := disks.foldl (fun acc entry =>
    match entry.2 with
    | DiskData.ok _ _ used_pct =>
        if used_pct ≥ 80 then acc ++ [diskPressureLine entry.1] else acc
    | DiskData.err _ => acc) analysis
  if analysis = [] then [allClearLine] else analysis

/-- The selector of the disk loop in `generate_analysis`. -/
def diskLineSel (entry : String × DiskData) : Option String :=
  match entry.2 with
  | DiskData.ok _ _ used_pct =>
      if used_pct ≥ 80 then some (diskPressureLine entry.1) else none
  | DiskData.err _ => none

theorem generate_analysis_eq (risk : List String) (mem : MemorySnapshot)
    (disks : List (String × DiskData)) :
    generate_analysis risk mem disks =
      if (if "RAM_CRITICAL" ∈ risk ∨ "SWAP_CRITICAL" ∈ risk then [memPressureLine]
          else []) ++ disks.filterMap diskLineSel = [] then [allClearLine]
      else (if "RAM_CRITICAL" ∈ risk ∨ "SWAP_CRITICAL" ∈ risk then [memPressureLine]
          else []) ++ disks.filterMap diskLineSel := by
  have hstep : ∀ (acc : List String) (entry : String × DiskData),
      (match entry.2 with
       | DiskData.ok _ _ used_pct =>
           if used_pct ≥ 80 then acc ++ [diskPressureLine entry.1] else acc
       | DiskData.err _ => acc) = acc ++ (diskLineSel entry).toList := by
    intro acc entry
    unfold diskLineSel
    obtain ⟨m, d⟩ := entry
    cases d with
    | ok t u p => by_cases hp : p ≥ (80 : ℚ) <;> simp [hp]
    | err m2 => simp
  unfold generate_analysis
  dsimp only
  rw [foldl_step_filterMap _ diskLineSel hstep]
  by_cases c : "RAM_CRITICAL" ∈ risk ∨ "SWAP_CRITICAL" ∈ risk
  · rw [if_pos c, if_pos c]
    simp
  · rw [if_neg c, if_neg c]

theorem diskLineSel_ne_allClear {entry : String × DiskData} {s : String}
    (h : diskLineSel entry = some s) : s ≠ allClearLine := by
  obtain ⟨mount, d⟩ := entry
  cases d with
  | ok t u p =>
      simp only [diskLineSel] at h
      by_cases hp : (80 : ℚ) ≤ p
      · rw [if_pos hp] at h
        obtain rfl := Option.some.inj h
        intro hc
        have hdata := congrArg String.data hc
        simp only [diskPressureLine, allClearLine] at hdata
        have hhead := congrArg List.head? hdata
        rw [String.data_append, String.data_append] at hhead
        simp at hhead
      · rw [if_neg hp] at h
        exact absurd h (by simp)
  | err m =>
      simp only [diskLineSel] at h
      exact absurd h (by simp)

/-- Claim C3: `generate_analysis` emits, in order, the memory-pressure
sentence iff `RAM_CRITICAL` or `SWAP_CRITICAL` is in the risk list, then one
disk-pressure sentence per non-error entry with `used_pct ≥ 80` in snapshot
order; it is never empty, and the fallback sentence appears iff no rule
fired (so the fallback never co-occurs with a warning). -/
theorem generate_analysis_rules (risk : List String) (mem : MemorySnapshot)
    (disks : List (String × DiskData)) :
    generate_analysis risk mem disks =
      (if (if "RAM_CRITICAL" ∈ risk ∨ "SWAP_CRITICAL" ∈ risk then [memPressureLine]
          else []) ++ disks.filterMap diskLineSel = [] then [allClearLine]
       else (if "RAM_CRITICAL" ∈ risk ∨ "SWAP_CRITICAL" ∈ risk then [memPressureLine]
          else []) ++ disks.filterMap diskLineSel) ∧
    generate_analysis risk mem disks ≠ [] ∧
    (allClearLine ∈ generate_analysis risk mem disks ↔
      (if "RAM_CRITICAL" ∈ risk ∨ "SWAP_CRITICAL" ∈ risk then [memPressureLine]
          else []) ++ disks.filterMap diskLineSel = []) := by
  have h := generate_analysis_eq risk mem disks
  generalize hW : (if "RAM_CRITICAL" ∈ risk ∨ "SWAP_CRITICAL" ∈ risk
    then [memPressureLine] else []) ++ disks.filterMap diskLineSel = W at h ⊢
  have hne : ∀ s ∈ W, s ≠ allClearLine := by
    intro s hs
    rw [← hW] at hs
    rcases List.mem_append.mp hs with hs1 | hs1
    · by_cases c : "RAM_CRITICAL" ∈ risk ∨ "SWAP_CRITICAL" ∈ risk
      · rw [if_pos c] at hs1
        simp only [List.mem_singleton] at hs1
        subst hs1
        simp only [memPressureLine, allClearLine]
        decide
      · rw [if_neg c] at hs1
        simp at hs1
    · obtain ⟨e, _, hsel⟩ := List.mem_filterMap.mp hs1
      exact diskLineSel_ne_allClear hsel
  refine ⟨h, ?_, ?_⟩
  · rw [h]
    split_ifs with hif
    · simp
    · exact hif
  · rw [h]
    split_ifs with hif
    · exact iff_of_true (List.mem_singleton_self _) hif
    · exact iff_of_false (fun hmem => hne _ hmem rfl) hif

/-- Claim C9: `generate_analysis` does not depend on its memory-snapshot
argument — any two memory snapshots give identical output for the same risk
list and disk snapshot. -/
theorem generate_analysis_ignores_memory (risk : List String)
    (mem mem2 : MemorySnapshot) (disks : List (String × DiskData)) :
    generate_analysis risk mem disks = generate_analysis risk mem2 disks := rfl

/-- `THRESHOLDS["mem_used_pct"]` from the legacy v02 source. -/
def THRESHOLDS_v02_mem_used_pct : ℚ := 85

/-- `THRESHOLDS["swap_used_pct"]` from the legacy v02 source. -/
def THRESHOLDS_v02_swap_used_pct : ℚ := 60

/-- `THRESHOLDS["disk_used_pct"]` from the legacy v02 source. -/
def THRESHOLDS_v02_disk_used_pct : ℚ := 80

/-- `classify_risk(mem, disks)` from the legacy v02 source (lines 65-78),
translated independently of the v04 embedding. -/
def classify_risk_v02 (mem : MemorySnapshot)
    (disks : List (String × DiskData)) : List String :=
  let alerts : List String := []
  let alerts :=
    if mem.mem_used_pct ≥ THRESHOLDS_v02_mem_used_pct then alerts ++ ["RAM_CRITICAL"]
    else alerts
  let alerts :=
    if mem.swap_used_pct ≥ THRESHOLDS_v02_swap_used_pct then alerts ++ ["SWAP_CRITICAL"]
    else alerts
  let alerts := disks.foldl (fun acc entry =>
    match entry.2 with
    | DiskData.ok _ _ used_pct =>
        if used_pct ≥ THRESHOLDS_v02_disk_used_pct then acc ++ ["DISK_CRITICAL:" ++ entry.1]
        else acc
    | DiskData.err _ => acc) alerts
  if alerts = [] then ["OK"] else alerts

/-- `recommend_resources(mem, disks)` from the legacy v02 source
(lines 80-110), translated independently of the v04 embedding. -/
def recommend_resources_v02 (mem : MemorySnapshot)
    (disks : List (String × DiskData)) : Recommendations :=
  let ideal_ram : ℤ :=
    if mem.mem_used_pct ≥ 80 then ⌈mem.mem_used_gb * (1.5 : ℚ)⌉
    else ⌈mem.mem_total_gb⌉
  let disk_reco := disks.foldl (fun acc entry =>
    match entry.2 with
    | DiskData.ok total_gb used_gb _ =>
        acc ++ [(entry.1,
          { current_total_gb := total_gb,
            recommended_total_gb := ⌈used_gb * (1.4 : ℚ)⌉ })]
    | DiskData.err _ => acc) []
  { ram_gb_recommended := ideal_ram,
    disk_recommendations := disk_reco,
    journald_limits := [("SystemMaxUse", "500M"), ("SystemKeepFree", "1G"),
      ("RuntimeMaxUse", "200M"), ("MaxFileSec", "7day")] }

/-- `generate_analysis(risk, mem, disks)` from the legacy v02 source
(lines 112-134), translated independently of the v04 embedding with its
string literals spelled inline. -/
def generate_analysis_v02 (risk : List String) (mem : MemorySnapshot)
    (disks : List (String × DiskData)) : List String :=
  let analysis : List String := []
  let analysis :=
    if "RAM_CRITICAL" ∈ risk ∨ "SWAP_CRITICAL" ∈ risk then
      analysis ++
        ["Pressão de memória detectada. O sistema opera próximo ao limite, com risco de congelamentos e latência elevada."]
    else analysis
  let analysis := disks.foldl (fun acc entry =>
    match entry.2 with
    | DiskData.ok _ _ used_pct =>
        if used_pct ≥ 80 then
          acc ++
            ["A partição " ++ entry.1 ++ " está acima de 80% de uso, o que pode causar falhas de escrita, travamentos de serviços e degradação geral."]
        else acc
    | DiskData.err _ => acc) analysis
  if analysis = [] then
    ["O sistema opera dentro de parâmetros aceitáveis, sem indícios de quase travamento no período analisado."]
  else analysis

/-- Claim C8: the three transform functions of the legacy v02 source are
extensionally equal to the v04 ones on every input. -/
theorem transform_v02_v04_equivalent (risk : List String)
    (mem : MemorySnapshot) (disks : List (String × DiskData)) :
    classify_risk_v02 mem disks = classify_risk mem disks ∧
    recommend_resources_v02 mem disks = recommend_resources mem disks ∧
    generate_analysis_v02 risk mem disks = generate_analysis risk mem disks :=
  ⟨rfl, rfl, rfl⟩

/-- Python dict assignment `d[key] = val`: replace in place when the key is
already present (keeping its original position), append otherwise. -/
def dictInsert {β : Type} (d : List (String × β)) (key : String) (val : β) :
    List (String × β) :=
  match d with
  | [] => [(key, val)]
  | (a, b) :: rest =>
      if a = key then (key, val) :: rest else (a, b) :: dictInsert rest key val

/-- `round(x, 2)` applied to the exact rational value of the source's float
expression (the float representation itself is not modelled; no claim
depends on the rounding of a tie). -/
def round2 (q : ℚ) : ℚ := (round (q * 100) : ℚ) / 100

/-- The body of one iteration of `get_disk_info`: query `psutil.disk_usage`
through the oracle `fs` (`none` models the `FileNotFoundError` raised for a
missing mount; `some (total, used, percent)` the returned bytes and percent)
and build the entry stored in the dict. -/
def diskQuery (fs : String → Option (ℚ × ℚ × ℚ)) (mount : String) : DiskData :=
  match fs mount with
  | some (total, used, percent) =>
      DiskData.ok (round2 (total / (1e9 : ℚ))) (round2 (used / (1e9 : ℚ))) percent
  | none => DiskData.err "mount not found"

/-- `get_disk_info(mounts)` from v04 (lines 54-66) over the filesystem
oracle `fs`: one loop iteration per requested mount, each storing either the
numeric entry or the error marker into the dict. -/
def get_disk_info (fs : String → Option (ℚ × ℚ × ℚ)) (mounts : List String) :
    List (String × DiskData) :=
  mounts.foldl (fun disks mount => dictInsert disks mount (diskQuery fs mount)) []

theorem dictInsert_notMem {β : Type} (d : List (String × β)) (key : String)
    (val : β) (h : key ∉ d.map Prod.fst) : dictInsert d key val = d ++ [(key, val)] := by
  induction d with
  | nil => rfl
  | cons hd tl ih =>
      obtain ⟨a, b⟩ := hd
      simp only [List.map_cons, List.mem_cons] at h
      push_neg at h
      obtain ⟨h1, h2⟩ := h
      simp only [dictInsert]
      rw [if_neg (fun hc => h1 hc.symm), ih h2]
      rfl

theorem get_disk_info_foldl (fs : String → Option (ℚ × ℚ × ℚ)) :
    ∀ (mounts : List String) (acc : List (String × DiskData)),
      mounts.Nodup → (∀ m ∈ mounts, m ∉ acc.map Prod.fst) →
      mounts.foldl (fun disks mount => dictInsert disks mount (diskQuery fs mount)) acc =
        acc ++ mounts.map (fun m => (m, diskQuery fs m)) := by
  intro mounts
  induction mounts with
  | nil => intro acc _ _; simp
  | cons m ms ih =>
      intro acc hnd hfresh
      rw [List.foldl_cons,
        dictInsert_notMem acc m (diskQuery fs m) (hfresh m (List.mem_cons_self m ms))]
      rw [List.nodup_cons] at hnd
      rw [ih (acc ++ [(m, diskQuery fs m)]) hnd.2]
      · simp
      · intro x hx
        rw [List.map_append, List.mem_append]
        push_neg
        constructor
        · exact hfresh x (List.mem_cons_of_mem m hx)
        · intro hc
          simp only [List.map_cons, List.map_nil, List.mem_singleton] at hc
          exact hnd.1 (hc ▸ hx)

/-- Claim C5: for a duplicate-free mount list, `get_disk_info` returns one
entry per requested mount in order; each entry is either the numeric shape
or the `mount not found` error marker depending on whether the filesystem
query succeeds, and a missing mount does not stop later mounts from being
queried. -/
theorem get_disk_info_per_mount (fs : String → Option (ℚ × ℚ × ℚ))
    (mounts : List String) (hnd : mounts.Nodup) :
    get_disk_info fs mounts = mounts.map (fun m =>
      (m, match fs m with
          | some (total, used, percent) =>
              DiskData.ok (round2 (total / (1e9 : ℚ))) (round2 (used / (1e9 : ℚ))) percent
          | none => DiskData.err "mount not found")) ∧
    (get_disk_info fs mounts).length = mounts.length := by
  have h : get_disk_info fs mounts = mounts.map (fun m => (m, diskQuery fs m)) := by
    unfold get_disk_info
    rw [get_disk_info_foldl fs mounts [] hnd (by simp)]
    rfl
  exact ⟨h, by rw [h, List.length_map]⟩

/-- A concrete filesystem oracle for the witness: `/home` is missing, the
other default mounts resolve. -/
def fsWitness : String → Option (ℚ × ℚ × ℚ) := fun m =>
  if m = "/home" then none else some (100000000000, 50000000000, 50)

theorem get_disk_info_per_mount_witness :
    (["/", "/var", "/home"] : List String).Nodup ∧
    (get_disk_info fsWitness ["/", "/var", "/home"] =
      (["/", "/var", "/home"] : List String).map (fun m =>
        (m, match fsWitness m with
            | some (total, used, percent) =>
                DiskData.ok (round2 (total / (1e9 : ℚ))) (round2 (used / (1e9 : ℚ))) percent
            | none => DiskData.err "mount not found")) ∧
      (get_disk_info fsWitness ["/", "/var", "/home"]).length =
        (["/", "/var", "/home"] : List String).length) :=
  ⟨by decide, get_disk_info_per_mount fsWitness ["/", "/var", "/home"] (by decide)⟩

/-- One row of the `audits` table created by `init_db` (the auto-increment
id is the row's position in the list model). `Option` models SQL NULL, which
is what the sqlite3 binding stores for a Python `None` parameter. -/
structure AuditRow where
  timestamp : String
  ram_used_pct : ℚ
  swap_used_pct : ℚ
  ram_total_gb : ℚ
  disk_root_pct : Option ℚ
  disk_var_pct : Option ℚ
  disk_home_pct : Option ℚ
  risk_level : String
deriving DecidableEq

/-- The `report` dict assembled by `run_audit` (lines 268-276). -/
structure AuditReport where
  timestamp : String
  risk_level : List String
  analysis : List String
  memory : MemorySnapshot
  disks : List (String × DiskData)
  recommendations : Recommendations
  log_indicators : List String

/-- Python `disks.get(key, {})`: first association for the key, if any. -/
def dictGet (d : List (String × DiskData)) (key : String) : Option DiskData :=
  match d with
  | [] => none
  | (a, b) :: rest => if a = key then some b else dictGet rest key

/-- `disks.get(mount, {}).get("used_pct")` from `save_sqlite`: the used
percentage when the mount is present with the numeric shape, `None` when it
is absent or an error entry (whose dict has no `used_pct` key). -/
def getUsedPct (disks : List (String × DiskData)) (mount : String) : Option ℚ :=
  match dictGet disks mount with
  | some (DiskData.ok _ _ used_pct) => some used_pct
  | some (DiskData.err _) => none
  | none => none

/-- `save_sqlite(report)` from v04 (lines 221-250) acting on the `audits`
table modelled as a list of rows: a single INSERT of the bound parameter
tuple, then commit. -/
def save_sqlite (db : List AuditRow) (report : AuditReport) : List AuditRow :=
  db ++ [{ timestamp := report.timestamp,
           ram_used_pct := report.memory.mem_used_pct,
           swap_used_pct := report.memory.swap_used_pct,
           ram_total_gb := report.memory.mem_total_gb,
           disk_root_pct := getUsedPct report.disks "/",
           disk_var_pct := getUsedPct report.disks "/var",
           disk_home_pct := getUsedPct report.disks "/home",
           risk_level := String.intercalate "," report.risk_level }]

/-- Claim C6: `save_sqlite` appends exactly one row; its `risk_level` is the
risk tags joined by commas, its three disk columns are the `used_pct` of
`/`, `/var`, `/home` or NULL for an absent or error entry, and the remaining
columns carry the report's timestamp and memory figures. -/
theorem save_sqlite_row (db : List AuditRow) (report : AuditReport) :
    (save_sqlite db report).length = db.length + 1 ∧
    save_sqlite db report =
      db ++ [{ timestamp := report.timestamp,
               ram_used_pct := report.memory.mem_used_pct,
               swap_used_pct := report.memory.swap_used_pct,
               ram_total_gb := report.memory.mem_total_gb,
               disk_root_pct :=
                 match dictGet report.disks "/" with
                 | some (DiskData.ok _ _ used_pct) => some used_pct
                 | _ => none,
               disk_var_pct :=
                 match dictGet report.disks "/var" with
                 | some (DiskData.ok _ _ used_pct) => some used_pct
                 | _ => none,
               disk_home_pct :=
                 match dictGet report.disks "/home" with
                 | some (DiskData.ok _ _ used_pct) => some used_pct
                 | _ => none,
               risk_level := String.intercalate "," report.risk_level }] := by
  have hpct : ∀ mount, getUsedPct report.disks mount =
      match dictGet report.disks mount with
      | some (DiskData.ok _ _ used_pct) => some used_pct
      | _ => none := by
    intro mount
    unfold getUsedPct
    cases h : dictGet report.disks mount with
    | none => rfl
    | some d => cases d <;> rfl
  constructor
  · simp [save_sqlite]
  · unfold save_sqlite
    rw [hpct "/", hpct "/var", hpct "/home"]

/-!
Resource-safety model of the load stage. Each function that acquires a
resource is given its control flow explicitly: a `Bool` oracle says whether
the body between acquisition and the normal release raises a Python
exception, the result records whether the exception propagated and the
resource state at that point. `sqlite3.connect` / `conn.close()` count the
open connections; `open(...)` inside a `with` block tracks file handles, and
the `with` statement closes its handle on both the normal and the raising
path. `conn.commit()` does not change which resources are held.
-/

/-- Resources held at a point of the run: open sqlite connections and open
file handles (by path). -/
structure ResState where
  open_db_conns : Nat
  open_files : List String
deriving DecidableEq

/-- `sqlite3.connect(DB_FILE)`. -/
def connectDb (s : ResState) : ResState :=
  { s with open_db_conns := s.open_db_conns + 1 }

/-- `conn.close()`. -/
def closeDb (s : ResState) : ResState :=
  { s with open_db_conns := s.open_db_conns - 1 }

/-- `open(path, ...)` entering a `with` block. -/
def openFile (path : String) (s : ResState) : ResState :=
  { s with open_files := s.open_files ++ [path] }

/-- The file handle released when a `with` block is left. -/
def closeFile (path : String) (s : ResState) : ResState :=
  { s with open_files := s.open_files.erase path }

/-- `init_db()` from v04 (lines 173-192): connect, run `CREATE TABLE ...`,
commit, close. The connection is a bare binding — no `with`, no
`try/finally` — so when the execute raises, the function is left without
reaching `conn.close()`. -/
def init_db_fx (execRaises : Bool) (s : ResState) : Bool × ResState :=
  let s := connectDb s
  if execRaises then (true, s)
  else (false, closeDb s)

/-- `save_sqlite(report)` from v04 (lines 221-250), resource view: connect,
run the INSERT, commit, close; the same bare-binding pattern as `init_db`. -/
def save_sqlite_fx (execRaises : Bool) (s : ResState) : Bool × ResState :=
  let s := connectDb s
  if execRaises then (true, s)
  else (false, closeDb s)

/-- `save_json(report)` from v04 (lines 199-201): `with open(...)` around
`json.dump`; the `with` statement closes the handle whether or not the body
raises. -/
def save_json_fx (writeRaises : Bool) (s : ResState) : Bool × ResState :=
  let s := openFile "audit_report.json" s
  (writeRaises, closeFile "audit_report.json" s)

/-- `save_csv(report)` from v04 (lines 203-218): `with open(...)` around the
CSV writer loop; the handle is closed on both exit paths. -/
def save_csv_fx (writeRaises : Bool) (s : ResState) : Bool × ResState :=
  let s := openFile "audit_report.csv" s
  (writeRaises, closeFile "audit_report.csv" s)

/-- The load stage of `run_audit()` (lines 280-285) — `init_db()`;
`save_sqlite(report)`; `save_json(report)`; `save_csv(report)` — with an
exception in any step propagating and skipping the remaining steps. -/
def run_audit_load_fx (initRaises sqliteRaises jsonRaises csvRaises : Bool)
    (s : ResState) : Bool × ResState :=
  let r1 := init_db_fx initRaises s
  if r1.1 then r1 else
  let r2 := save_sqlite_fx sqliteRaises r1.2
  if r2.1 then r2 else
  let r3 := save_json_fx jsonRaises r2.2
  if r3.1 then r3 else
  save_csv_fx csvRaises r3.2

/-- No acquired resource is still held. -/
def allReleased (s : ResState) : Prop :=
  s.open_db_conns = 0 ∧ s.open_files = []

instance (s : ResState) : Decidable (allReleased s) := by
  unfold allReleased
  infer_instance

/-- Counterexample to claim C7 as stated: when the INSERT inside
`save_sqlite` raises (for example on a locked database), the run aborts with
the sqlite connection opened by `save_sqlite` never closed, because
`conn.close()` is a plain statement after the execute, not a `finally` or a
context manager. -/
theorem run_audit_leaks_on_insert_failure :
    ¬ allReleased (run_audit_load_fx false true false false
      { open_db_conns := 0, open_files := [] }).2 := by
  decide

/-- Claim C7, amended: the JSON and CSV file handles are released on every
exit path (their `with` blocks close them even when the body raises), and
the sqlite connections are committed and closed exactly on the runs where no
exception is raised between `connect` and `close` inside `init_db` or
`save_sqlite`; an exception there leaves that connection open when the run
aborts. -/
theorem run_audit_release_characterization :
    ∀ initRaises sqliteRaises jsonRaises csvRaises : Bool,
      allReleased (run_audit_load_fx initRaises sqliteRaises jsonRaises csvRaises
        { open_db_conns := 0, open_files := [] }).2 ↔
      (initRaises = false ∧ sqliteRaises = false) := by
  decide

/-- Whether `k` is a leading segment of `s` (character lists). -/
def leadsWith : List Char → List Char → Bool
  | [], _ => true
  | _ :: _, [] => false
  | c :: k, d :: s => c == d && leadsWith k s

/-- Whether `k` occurs contiguously inside `s` (character lists); this is
Python's `k in s` on strings. -/
def hasSub (k : List Char) (s : List Char) : Bool :=
  match s with
  | [] => k.isEmpty
  | _ :: rest => leadsWith k s || hasSub k rest

/-- Python `k in line`: substring containment. -/
def strIn (k line : String) : Bool := hasSub k.data line.data

/-- The `keywords` list of `get_critical_logs` (lines 69-72). -/
def KEYWORDS : List String :=
  ["oom", "out of memory", "allocation failure",
   "enospc", "no space left", "memory pressure"]

/-- Python `str.lower()` (ASCII case folding, which covers the keyword
set). -/
def pyLower (s : String) : String := String.mk (s.data.map Char.toLower)

/-- `any(k in line.lower() for k in keywords)`. -/
def matchesKeyword (line : String) : Bool :=
  KEYWORDS.any (fun k => strIn k (pyLower line))

/-- Helper for `pySplitlines`: split at each newline, emitting the pending
segment; the final pending segment is emitted only when non-empty, which is
why a trailing newline produces no empty last line. -/
def splitlinesAux (cur : List Char) : List Char → List String
  | [] => if cur.isEmpty then [] else [String.mk cur]
  | c :: rest =>
      if c == Char.ofNat 10 then String.mk cur :: splitlinesAux [] rest
      else splitlinesAux (cur ++ [c]) rest

/-- Python `str.splitlines()` for newline-separated text (the kernel log is
line-oriented; the rarer `\r`/`\v`-style separators are not modelled). -/
def pySplitlines (s : String) : List String := splitlinesAux [] s.data

/-- The last `n` elements of a list, `lines[-n:]` in Python. -/
def takeLast {α : Type} (n : Nat) (l : List α) : List α := l.drop (l.length - n)

/-- `get_critical_logs()` from v04 (lines 68-79) over an oracle for
`subprocess.run(cmd, capture_output=True, text=True)`: `none` models the
`FileNotFoundError` raised when `journalctl` cannot be launched at all,
`some (returncode, stdout)` a completed process — `subprocess.run` is called
without `check=True`, so a non-zero exit code raises nothing and only the
captured standard output is used. -/
def get_critical_logs (launch : Option (Int × String)) :
    Except String (List String) :=
  match launch with
  | none => Except.error "FileNotFoundError: journalctl"
  | some (_, stdout) =>
      Except.ok (takeLast 20 ((pySplitlines stdout).filter matchesKeyword))

/-- Claim C10: when the kernel-log command launches, `get_critical_logs`
never raises, whatever the exit code: it filters the captured standard
output case-insensitively against the six keywords and keeps at most the
last 20 matching lines in original order (a sublist of the output lines),
the empty output giving the empty list; only a failure to launch the
command propagates as an exception. -/
theorem get_critical_logs_no_raise (returncode : Int) (stdout : String) :
    get_critical_logs (some (returncode, stdout)) =
      Except.ok (takeLast 20 ((pySplitlines stdout).filter matchesKeyword)) ∧
    (takeLast 20 ((pySplitlines stdout).filter matchesKeyword)).length ≤ 20 ∧
    List.Sublist (takeLast 20 ((pySplitlines stdout).filter matchesKeyword))
      (pySplitlines stdout) ∧
    get_critical_logs (some (returncode, "")) = Except.ok ([] : List String) ∧
    get_critical_logs (none : Option (Int × String)) =
      Except.error "FileNotFoundError: journalctl" := by
  refine ⟨rfl, ?_, ?_, ?_, rfl⟩
  · unfold takeLast
    rw [List.length_drop]
    omega
  · exact List.Sublist.trans (List.drop_sublist _ _) (List.filter_sublist _)
  · show Except.ok (takeLast 20 ((pySplitlines "").filter matchesKeyword)) =
      Except.ok ([] : List String)
    rfl

end LinuxResourceAudit
